import Mathlib

/-!
# MyANN: a wrapper around the TensorFlow C API

A shallow embedding of `src/MyANN.h` and `src/MyANN.cpp`.

* The wrapper object is a record; every member function takes the record and
  returns the record after the call (or the way the call ended abnormally).
* The TensorFlow C API is outside the repository.  Every call into it goes
  through a field of `TFApi`, so each theorem holds for every behaviour of the
  library.
* `int` values are `Int`, `size_t` values are `Nat` reduced modulo `2 ^ 64`
  after every multiplication, and the conversions between them are explicit.
-/

/-! ## Machine integers -/

/-- Number of values of `size_t` (64-bit target). -/
def SIZE_T_MOD : Nat := 2 ^ 64

/-- The conversion `static_cast<int>(x)` of a `size_t` value: reduction modulo
`2 ^ 32` read as a signed 32-bit value. -/
def toInt32 (x : Nat) : Int :=
  if x % 2 ^ 32 < 2 ^ 31 then ((x % 2 ^ 32 : Nat) : Int)
  else ((x % 2 ^ 32 : Nat) : Int) - 2 ^ 32

/-- The implicit conversion of an `int` operand to `size_t` in
`DataSizeInBytes *= dim`: reduction modulo `2 ^ 64`. -/
def toSizeT (x : Int) : Nat := (x % 2 ^ 64).toNat

/-- Multiplication of two `size_t` values. -/
def mulSizeT (a b : Nat) : Nat := (a * b) % SIZE_T_MOD

/-! ## Handles and values of the TensorFlow C API -/

/-- The C enum `TF_DataType`, by its integer code. -/
abbrev TF_DataType := Nat

/-- Code of `TF_FLOAT` in `tensorflow/c/tf_datatype.h`. -/
def TF_FLOAT : TF_DataType := 1

/-- Code of `TF_DOUBLE` in `tensorflow/c/tf_datatype.h`. -/
def TF_DOUBLE : TF_DataType := 2

/-- A `TF_Graph*` that is not null. -/
abbrev TF_Graph := Nat

/-- A `TF_Session*` that is not null. -/
abbrev TF_Session := Nat

/-- A `TF_Operation*` that is not null. -/
abbrev TF_Operation := Nat

/-- The C struct `TF_Output`: an operation and the index of one of its outputs. -/
structure TF_Output where
  oper : TF_Operation
  index : Int
deriving DecidableEq, Repr

/-- A tensor owned by the library: its element type and its bytes. -/
structure TF_Tensor where
  dtype : TF_DataType
  bytes : List Nat
deriving DecidableEq, Repr

/-- The accessor `TF_TensorType`. -/
def TF_TensorType (t : TF_Tensor) : TF_DataType := t.dtype

/-- The accessor `TF_TensorByteSize`. -/
def TF_TensorByteSize (t : TF_Tensor) : Nat := t.bytes.length

/-- The accessor `TF_TensorData`: the bytes of the tensor, from the first. -/
def TF_TensorData (t : TF_Tensor) : List Nat := t.bytes

/-- The calls the wrapper makes into its environment.  A status that reports
failure, and a null result, are both `none`. -/
structure TFApi where
  /-- The call `TF_DataTypeSize`, a `size_t`. -/
  TF_DataTypeSize : TF_DataType → Nat
  /-- The bytes of a file, `none` when the stream cannot deliver them. -/
  fileBytes : String → Option (List Nat)
  /-- The call `TF_GraphImportGraphDef` into a new graph with default options. -/
  TF_GraphImportGraphDef : List Nat → Option TF_Graph
  /-- The call `TF_GraphOperationByName`. -/
  TF_GraphOperationByName : TF_Graph → String → Option TF_Operation
  /-- The call `TF_NewSession` with default options. -/
  TF_NewSession : TF_Graph → Option TF_Session
  /-- The call `TF_NewTensor` over the element type, the dimension array, the dimension
  count, the bytes of the caller and the byte length. -/
  TF_NewTensor : TF_DataType → List Int → Int → List Nat → Nat → Option TF_Tensor
  /-- The call `TF_SessionRun` with one input and one output. -/
  TF_SessionRun : TF_Session → TF_Output → TF_Tensor → TF_Output → Option TF_Tensor

/-! ## The ways a call ends abnormally -/

/-- Abnormal ends of a call. -/
inductive Halt where
  /-- The call `exit(code)`. -/
  | exitCode (code : Nat)
  /-- A failed `assert`. -/
  | assertFailed
  /-- The exception of a stream whose `failbit` or `badbit` is set. -/
  | iosFailure
  /-- Behaviour the language leaves undefined. -/
  | undefinedBehaviour
deriving DecidableEq, Repr

/-! ## MyANN.h -/

/-- The constant `MY_TENSOR_SHAPE_MAX_DIM`. -/
def MY_TENSOR_SHAPE_MAX_DIM : Nat := 16

/-- The struct `TensorShape`: the sixteen entries of `values` and `dim`. -/
structure TensorShape where
  values : List Int
  dim : Int
deriving DecidableEq, Repr

/-- Aggregate initialisation `{ {v0, v1, ...}, dim }` of a `TensorShape`: the
entries of `values` that are not given are zero. -/
def TensorShape.aggregate (given : List Int) (dim : Int) : TensorShape :=
  { values := given ++ List.replicate (MY_TENSOR_SHAPE_MAX_DIM - given.length) 0
    dim := dim }

/-- The class `MySession`. -/
structure MySession where
  graph : TF_Graph
  session : TF_Session
  inputs : TF_Output
  outputs : TF_Output
deriving DecidableEq, Repr

/-- The enum `MyANN::INPUT_CLASS`. -/
inductive INPUT_CLASS where
  | LIST
  | IMAGE_2D
  | POINTCLOUD_3D
deriving DecidableEq, Repr

/-- The data members of `MyANN`. -/
structure MyANN where
  ModelInputType : INPUT_CLASS
  input_shape : TensorShape
  DataSizeInBytes : Nat
  OutputLength : Nat
  InputDataType : TF_DataType
  session : Option MySession
deriving DecidableEq, Repr

/-! ## MyANN.cpp -/

/-- The factory `MyANN::New`.  The constructor is defaulted, so `input_shape` keeps the
indeterminate contents of the allocation, here `uninit`; `DataSizeInBytes` and
`session` take their default member initialisers. -/
def MyANN.New (ModelInput : INPUT_CLASS) (InputDataType : TF_DataType)
    (OutputLength : Nat) (uninit : TensorShape) : MyANN :=
  { ModelInputType := ModelInput
    input_shape := uninit
    DataSizeInBytes := 1
    OutputLength := OutputLength
    InputDataType := InputDataType
    session := none }

/-- The loop `for (const auto& dim : dims) DataSizeInBytes *= dim;`. -/
def multiplyDims (DataSizeInBytes : Nat) (dims : List Int) : Nat :=
  dims.foldl (fun acc dim => mulSizeT acc (toSizeT dim)) DataSizeInBytes

/-- The overload `MyANN::set_input_shape(std::array<int, 2>)`. -/
def MyANN.set_input_shape_2 (api : TFApi) (self : MyANN) (d0 d1 : Int) :
    Except Halt MyANN :=
  if self.ModelInputType ≠ INPUT_CLASS.LIST then
    .error (.exitCode 1337)
  else
    let dtypesize := toInt32 (api.TF_DataTypeSize self.InputDataType)
    let shape := TensorShape.aggregate [1, d0, d1] dtypesize
    let size := multiplyDims self.DataSizeInBytes [d0, d1]
    .ok { self with
            input_shape := shape
            DataSizeInBytes := mulSizeT size (toSizeT dtypesize) }

/-- The overload `MyANN::set_input_shape(std::array<int, 3>)`. -/
def MyANN.set_input_shape_3 (api : TFApi) (self : MyANN) (d0 d1 d2 : Int) :
    Except Halt MyANN :=
  if self.ModelInputType ≠ INPUT_CLASS.IMAGE_2D then
    .error (.exitCode 1337)
  else
    let dtypesize := toInt32 (api.TF_DataTypeSize self.InputDataType)
    let shape := TensorShape.aggregate [1, d0, d1, d2] dtypesize
    let size := multiplyDims self.DataSizeInBytes [d0, d1, d2]
    .ok { self with
            input_shape := shape
            DataSizeInBytes := mulSizeT size (toSizeT dtypesize) }

/-- The overload `MyANN::set_input_shape(std::array<int, 4>)`. -/
def MyANN.set_input_shape_4 (api : TFApi) (self : MyANN) (d0 d1 d2 d3 : Int) :
    Except Halt MyANN :=
  if self.ModelInputType ≠ INPUT_CLASS.IMAGE_2D then
    .error (.exitCode 1337)
  else
    let dtypesize := toInt32 (api.TF_DataTypeSize self.InputDataType)
    let shape := TensorShape.aggregate [1, d0, d1, d2, d3] dtypesize
    let size := multiplyDims self.DataSizeInBytes [d0, d1, d2, d3]
    .ok { self with
            input_shape := shape
            DataSizeInBytes := mulSizeT size (toSizeT dtypesize) }

/-- The argument of a call of `set_input_shape`: one of the three array types. -/
inductive ShapeTuple where
  | array2 (d0 d1 : Int)
  | array3 (d0 d1 d2 : Int)
  | array4 (d0 d1 d2 d3 : Int)
deriving DecidableEq, Repr

/-- The declared dimensions of a tuple, in order. -/
def ShapeTuple.dims : ShapeTuple → List Int
  | .array2 d0 d1 => [d0, d1]
  | .array3 d0 d1 d2 => [d0, d1, d2]
  | .array4 d0 d1 d2 d3 => [d0, d1, d2, d3]

/-- Number of dimensions of a tuple. -/
def ShapeTuple.arity (t : ShapeTuple) : Nat := t.dims.length

/-- Overload resolution of `set_input_shape` on the type of its argument. -/
def MyANN.set_input_shape (api : TFApi) (self : MyANN) : ShapeTuple → Except Halt MyANN
  | .array2 d0 d1 => self.set_input_shape_2 api d0 d1
  | .array3 d0 d1 d2 => self.set_input_shape_3 api d0 d1 d2
  | .array4 d0 d1 d2 d3 => self.set_input_shape_4 api d0 d1 d2 d3

/-- The member `MyANN::valid_session`. -/
def MyANN.valid_session (self : MyANN) : Bool :=
  match self.session with
  | none => false
  | some _ => true

/-- The function `read_tf_buffer_from_file`: the stream throws when it cannot
deliver the bytes of the file; otherwise the buffer, which is never null, holds
them. -/
def read_tf_buffer_from_file (api : TFApi) (file : String) : Except Halt (List Nat) :=
  match api.fileBytes file with
  | none => .error .iosFailure
  | some data => .ok data

/-- The function `my_model_load`: `.ok none` is the null pointer.  The buffer
that was read is never null, so the first early return is never taken. -/
def my_model_load (api : TFApi) (filename input_name output_name : String) :
    Except Halt (Option MySession) :=
  match read_tf_buffer_from_file api filename with
  | .error e => .error e
  | .ok graph_def =>
    match api.TF_GraphImportGraphDef graph_def with
    | none => .ok none
    | some graph =>
      let input_op := api.TF_GraphOperationByName graph input_name
      let output_op := api.TF_GraphOperationByName graph output_name
      match input_op, output_op with
      | some input_op, some output_op =>
        match api.TF_NewSession graph with
        | none => .ok none
        | some session =>
          .ok (some { graph := graph
                      session := session
                      inputs := { oper := input_op, index := 0 }
                      outputs := { oper := output_op, index := 0 } })
      | _, _ => .ok none

/-- The member `MyANN::load_model`: the result of `my_model_load` replaces the
session that was held.  A throw of the stream ends the call before the
assignment; `MyANN.after_load_model` is the wrapper object that is left. -/
def MyANN.load_model (api : TFApi) (self : MyANN)
    (filename input_tensor_name output_tensor_name : String) : Except Halt MyANN :=
  match my_model_load api filename input_tensor_name output_tensor_name with
  | .error e => .error e
  | .ok loaded => .ok { self with session := loaded }

/-- The wrapper object after a call of `MyANN::load_model`, whichever way the
call ended.  The assignment to `session` runs only once `my_model_load` has
returned; when the stream throws, the exception leaves `load_model` before the
assignment and every member is as it was before the call. -/
def MyANN.after_load_model (api : TFApi) (self : MyANN)
    (filename input_tensor_name output_tensor_name : String) : MyANN :=
  match my_model_load api filename input_tensor_name output_tensor_name with
  | .error _ => self
  | .ok loaded => { self with session := loaded }

/-- The read `output_array[i]` through the `const float*`: the four bytes at
offset `4 * i`, or `none` when they are not all inside the tensor. -/
def readFloat (output_array : List Nat) (i : Nat) : Option (List Nat) :=
  if 4 * i + 4 ≤ output_array.length then some ((output_array.drop (4 * i)).take 4)
  else none

/-- The loop `for (int i = 0; i < output_size; i++) ret.push_back(output_array[i]);`
with `remaining = output_size - i`.  `fromFloat` is the conversion of the
`float` that was read to the element type `T` of the result. -/
def copyLoop {T : Type} (fromFloat : List Nat → T) (output_array : List Nat) :
    Nat → Nat → List T → Except Halt (List T)
  | 0, _, ret => .ok ret
  | remaining + 1, i, ret =>
    match readFloat output_array i with
    | none => .error .undefinedBehaviour
    | some f => copyLoop fromFloat output_array remaining (i + 1) (ret ++ [fromFloat f])

/-- The member `MyANN::run_model<T>`.  The `assert` is compiled in.  A null
session, a division by an element width of zero and the overflow of the `int`
counter are undefined behaviour. -/
def MyANN.run_model {T : Type} (api : TFApi) (fromFloat : List Nat → T) (self : MyANN)
    (input_data : List Nat) : Except Halt (List T) :=
  match api.TF_NewTensor self.InputDataType self.input_shape.values self.input_shape.dim
      input_data self.DataSizeInBytes with
  | none => .error (.exitCode 17)
  | some input_values =>
    match self.session with
    | none => .error .undefinedBehaviour
    | some session =>
      match api.TF_SessionRun session.session session.inputs input_values session.outputs with
      | none => .error (.exitCode 18)
      | some output =>
        if TF_TensorType output ≠ self.InputDataType then
          .error (.exitCode 19)
        else if api.TF_DataTypeSize self.InputDataType = 0 then
          .error .undefinedBehaviour
        else
          let output_size := TF_TensorByteSize output / api.TF_DataTypeSize self.InputDataType
          if output_size ≠ self.OutputLength then
            .error .assertFailed
          else if 2 ^ 31 ≤ output_size then
            .error .undefinedBehaviour
          else
            copyLoop fromFloat (TF_TensorData output) output_size 0 []

/-! ## Concrete environments and wrappers -/

/-- Byte widths of the element types of the TensorFlow C API, by type code
(zero for the variable-length types and for codes that name no type). -/
def tfDataTypeSize : TF_DataType → Nat
  | 1 => 4
  | 2 => 8
  | 3 => 4
  | 4 => 1
  | 5 => 2
  | 6 => 1
  | 8 => 8
  | 9 => 8
  | 10 => 1
  | 11 => 1
  | 12 => 1
  | 13 => 4
  | 14 => 2
  | 15 => 2
  | 16 => 2
  | 17 => 2
  | 18 => 16
  | 19 => 2
  | 22 => 4
  | 23 => 8
  | _ => 0

/-- An environment with one model file, `model.pb`, whose graph has the two
operations `input` and `output`; every run of a session yields `output`. -/
def sampleApi (output : Option TF_Tensor) : TFApi :=
  { TF_DataTypeSize := tfDataTypeSize
    fileBytes := fun file => if file = "model.pb" then some [10, 5] else none
    TF_GraphImportGraphDef := fun graph_def => if graph_def = [10, 5] then some 1 else none
    TF_GraphOperationByName := fun _ name =>
      if name = "input" then some 10 else if name = "output" then some 20 else none
    TF_NewSession := fun graph => some (graph + 100)
    TF_NewTensor := fun dtype _ _ data _ => some { dtype := dtype, bytes := data }
    TF_SessionRun := fun _ _ _ _ => output }

/-- Contents of `input_shape` before the first call of `set_input_shape`. -/
def sampleUninit : TensorShape := TensorShape.aggregate [] 0

/-- The session `my_model_load` builds in `sampleApi` for `input` and `output`. -/
def sampleSession : MySession :=
  { graph := 1
    session := 101
    inputs := { oper := 10, index := 0 }
    outputs := { oper := 20, index := 0 } }

/-- A wrapper that holds `sampleSession`. -/
def sampleLoaded (ModelInput : INPUT_CLASS) (InputDataType : TF_DataType)
    (OutputLength : Nat) : MyANN :=
  { MyANN.New ModelInput InputDataType OutputLength sampleUninit with
    session := some sampleSession }

/-- The pairings of input class and tuple that the specification calls valid. -/
def validPairing : INPUT_CLASS → ShapeTuple → Bool
  | .LIST, .array2 _ _ => true
  | .IMAGE_2D, .array3 _ _ _ => true
  | .POINTCLOUD_3D, .array4 _ _ _ _ => true
  | _, _ => false

/-- The class the guard of each overload of `set_input_shape` compares with
`ModelInputType`. -/
def guardClass : ShapeTuple → INPUT_CLASS
  | .array2 _ _ => .LIST
  | .array3 _ _ _ => .IMAGE_2D
  | .array4 _ _ _ _ => .IMAGE_2D

/-- The wrapper `MyANN::New(LIST, TF_FLOAT, 1024)` after `set_input_shape({1024, 1})`. -/
def sampleListShaped : MyANN :=
  { MyANN.New .LIST TF_FLOAT 1024 sampleUninit with
    input_shape := TensorShape.aggregate [1, 1024, 1] 4
    DataSizeInBytes := 4096 }

/-- The wrapper `MyANN::New(LIST, TF_DOUBLE, 1)` after `set_input_shape({1, 1})`
and `load_model("model.pb", "input", "output")` in `sampleApi`. -/
def sampleDoubleLoaded : MyANN :=
  { MyANN.New .LIST TF_DOUBLE 1 sampleUninit with
    input_shape := TensorShape.aggregate [1, 1, 1] 8
    DataSizeInBytes := 8
    session := some sampleSession }

/-- The bytes of the `double` 1.0 (IEEE 754, little-endian). -/
def doubleOne : List Nat := [0, 0, 0, 0, 0, 0, 240, 63]

/-- The bytes of the `double` 2.0 (IEEE 754, little-endian). -/
def doubleTwo : List Nat := [0, 0, 0, 0, 0, 0, 0, 64]

/-! ## Arithmetic of `size_t` -/

theorem toSizeT_cast (x : Int) : ((toSizeT x : Nat) : Int) = x % 2 ^ 64 := by
  unfold toSizeT
  exact Int.toNat_of_nonneg (Int.emod_nonneg _ (by norm_num))

theorem mulSizeT_cast (a : Nat) (x : Int) :
    ((mulSizeT a (toSizeT x) : Nat) : Int) = ((a : Int) * x) % 2 ^ 64 := by
  have h : ((2 ^ 64 : Nat) : Int) = 2 ^ 64 := by norm_num
  unfold mulSizeT SIZE_T_MOD
  rw [Int.natCast_mod, Int.natCast_mul, toSizeT_cast, h, Int.mul_emod,
    Int.emod_emod_of_dvd _ (dvd_refl _), ← Int.mul_emod]

theorem multiplyDims_cast (dims : List Int) (size : Nat) :
    ((multiplyDims size dims : Nat) : Int) % 2 ^ 64 = ((size : Int) * dims.prod) % 2 ^ 64 := by
  induction dims generalizing size with
  | nil => simp [multiplyDims]
  | cons d ds ih =>
    have step : multiplyDims size (d :: ds) = multiplyDims (mulSizeT size (toSizeT d)) ds := rfl
    rw [step, ih, mulSizeT_cast, List.prod_cons, Int.mul_emod, Int.emod_emod_of_dvd _ (dvd_refl _),
      ← Int.mul_emod, mul_assoc]

/-- The byte total a call of `set_input_shape` stores: the previous total times
every declared dimension times `dtypesize`, modulo `2 ^ 64`. -/
theorem dataSize_after (size : Nat) (dims : List Int) (dtypesize : Int) :
    ((mulSizeT (multiplyDims size dims) (toSizeT dtypesize) : Nat) : Int)
      = ((size : Int) * dims.prod * dtypesize) % 2 ^ 64 := by
  rw [mulSizeT_cast, Int.mul_emod, multiplyDims_cast, ← Int.mul_emod]

theorem toInt32_small (x : Nat) (h : x < 2 ^ 31) : toInt32 x = x := by
  unfold toInt32
  have h1 : x % 2 ^ 32 = x := Nat.mod_eq_of_lt (by omega)
  rw [h1, if_pos h]

/-! ## What a call of `set_input_shape` does -/

/-- A call of `set_input_shape` returns exactly when the guard of the selected
overload passes. -/
theorem set_input_shape_ok_iff (api : TFApi) (self : MyANN) (tuple : ShapeTuple) :
    (∃ w, self.set_input_shape api tuple = .ok w) ↔ self.ModelInputType = guardClass tuple := by
  cases tuple <;>
    simp only [MyANN.set_input_shape, MyANN.set_input_shape_2, MyANN.set_input_shape_3,
      MyANN.set_input_shape_4, guardClass] <;>
    split_ifs with h <;> simp_all

/-- A call of `set_input_shape` whose guard fails ends in `exit(1337)`. -/
theorem set_input_shape_exit (api : TFApi) (self : MyANN) (tuple : ShapeTuple)
    (h : self.ModelInputType ≠ guardClass tuple) :
    self.set_input_shape api tuple = .error (.exitCode 1337) := by
  cases tuple <;>
    simp only [MyANN.set_input_shape, MyANN.set_input_shape_2, MyANN.set_input_shape_3,
      MyANN.set_input_shape_4, guardClass] at h ⊢ <;>
    rw [if_pos h]

/-- The wrapper after a call of `set_input_shape` that returns. -/
theorem set_input_shape_result (api : TFApi) (self w : MyANN) (tuple : ShapeTuple)
    (h : self.set_input_shape api tuple = .ok w) :
    w = { self with
          input_shape := TensorShape.aggregate (1 :: tuple.dims)
            (toInt32 (api.TF_DataTypeSize self.InputDataType))
          DataSizeInBytes := mulSizeT (multiplyDims self.DataSizeInBytes tuple.dims)
            (toSizeT (toInt32 (api.TF_DataTypeSize self.InputDataType))) } := by
  cases tuple <;>
    simp only [MyANN.set_input_shape, MyANN.set_input_shape_2, MyANN.set_input_shape_3,
      MyANN.set_input_shape_4] at h <;>
    split_ifs at h <;>
    · injection h with h
      rw [← h]
      rfl

/-- The byte total after a call of `set_input_shape` that returns is the byte
total before the call times the declared dimensions times the element width as
an `int`, modulo `2 ^ 64`. -/
theorem set_input_shape_data_size (api : TFApi) (self w : MyANN) (tuple : ShapeTuple)
    (h : self.set_input_shape api tuple = .ok w) :
    (w.DataSizeInBytes : Int)
      = ((self.DataSizeInBytes : Int) * tuple.dims.prod
          * toInt32 (api.TF_DataTypeSize self.InputDataType)) % 2 ^ 64 := by
  rw [set_input_shape_result api self w tuple h]
  exact dataSize_after _ _ _

/-! ## Shape declaration -/

/-- C1: the stored dimension count is the byte width of the element type, not
the tuple arity plus one.  On a `LIST` wrapper over `TF_FLOAT` the call
`set_input_shape({1024, 1})` stores the count 4 and the counted values
`1, 1024, 1, 0`, where the specification has the count 3 and the values `1, 1024, 1`. -/
theorem C1_list_float_stores_width_as_count :
    ∃ w, (MyANN.New .LIST TF_FLOAT 1024 sampleUninit).set_input_shape (sampleApi none)
        (.array2 1024 1) = .ok w ∧
      w.input_shape.dim = 4 ∧
      w.input_shape.dim ≠ ((ShapeTuple.array2 1024 1).arity : Int) + 1 ∧
      w.input_shape.values.take 4 = [1, 1024, 1, 0] :=
  ⟨_, rfl, by decide, by decide, by decide⟩

/-- C2: on a wrapper built by `MyANN::New`, for a valid pairing, positive
dimensions, an element width that fits in `int` and a byte total that fits in
`size_t`, every call of `set_input_shape` that returns leaves `DataSizeInBytes`
equal to the product of the declared dimensions times the element width; and
the call does return for `LIST` and `IMAGE_2D`. -/
theorem C2_first_call_data_size (api : TFApi) (cls : INPUT_CLASS) (t : TF_DataType)
    (n : Nat) (uninit : TensorShape) (tuple : ShapeTuple)
    (hvalid : validPairing cls tuple = true)
    (hpos : ∀ d ∈ tuple.dims, 0 < d)
    (hwidth : api.TF_DataTypeSize t < 2 ^ 31)
    (hfits : tuple.dims.prod.toNat * api.TF_DataTypeSize t < 2 ^ 64) :
    (∀ w, (MyANN.New cls t n uninit).set_input_shape api tuple = .ok w →
        w.DataSizeInBytes = tuple.dims.prod.toNat * api.TF_DataTypeSize t) ∧
      (cls ≠ .POINTCLOUD_3D →
        ∃ w, (MyANN.New cls t n uninit).set_input_shape api tuple = .ok w) := by
  constructor
  · intro w h
    have hprod : 0 < tuple.dims.prod := List.prod_pos hpos
    have hsize : (w.DataSizeInBytes : Int)
        = ((1 : Int) * tuple.dims.prod * (api.TF_DataTypeSize t : Int)) % 2 ^ 64 := by
      rw [set_input_shape_data_size api _ w tuple h]
      simp only [MyANN.New]
      rw [toInt32_small _ hwidth]
      simp
    have hcast : ((tuple.dims.prod.toNat * api.TF_DataTypeSize t : Nat) : Int)
        = (1 : Int) * tuple.dims.prod * (api.TF_DataTypeSize t : Int) := by
      rw [Int.natCast_mul, Int.toNat_of_nonneg hprod.le, one_mul]
    rw [← hcast, Int.emod_eq_of_lt (Int.natCast_nonneg _) (by exact_mod_cast hfits)] at hsize
    exact_mod_cast hsize
  · intro hcls
    apply (set_input_shape_ok_iff api _ tuple).2
    cases cls <;> cases tuple <;> simp_all [validPairing, guardClass, MyANN.New]

/-- Witness of C2: a `LIST` wrapper over `TF_FLOAT` and the tuple `{1024, 1}`. -/
theorem C2_first_call_data_size_witness :
    (∀ w, (MyANN.New .LIST TF_FLOAT 1024 sampleUninit).set_input_shape (sampleApi none)
        (.array2 1024 1) = .ok w → w.DataSizeInBytes = 4096) ∧
      (INPUT_CLASS.LIST ≠ .POINTCLOUD_3D →
        ∃ w, (MyANN.New .LIST TF_FLOAT 1024 sampleUninit).set_input_shape (sampleApi none)
          (.array2 1024 1) = .ok w) :=
  C2_first_call_data_size (sampleApi none) .LIST TF_FLOAT 1024 sampleUninit (.array2 1024 1)
    rfl (by decide) (by decide) (by decide)

/-- C3: `DataSizeInBytes` is multiplied into, never reset.  Two calls of
`set_input_shape({2, 1})` on a new `LIST` wrapper over `TF_FLOAT` leave 8 bytes
after the first call and 64 after the second, with the same stored shape. -/
theorem C3_second_call_accumulates :
    ∃ w1 w2, (MyANN.New .LIST TF_FLOAT 2 sampleUninit).set_input_shape (sampleApi none)
        (.array2 2 1) = .ok w1 ∧
      w1.set_input_shape (sampleApi none) (.array2 2 1) = .ok w2 ∧
      w1.DataSizeInBytes = 8 ∧ w2.DataSizeInBytes = 64 ∧
      w2.input_shape = w1.input_shape ∧ w2 ≠ w1 :=
  ⟨_, _, rfl, rfl, by decide, by decide, by decide, by decide⟩

/-- C4: the overload for four dimensions compares the class with `IMAGE_2D`.
A `POINTCLOUD_3D` wrapper rejects every 4-tuple with `exit(1337)`, and an
`IMAGE_2D` wrapper accepts every 4-tuple. -/
theorem C4_pointcloud_tuple_rejected (api : TFApi) (t : TF_DataType) (n : Nat)
    (uninit : TensorShape) (d0 d1 d2 d3 : Int) :
    (MyANN.New .POINTCLOUD_3D t n uninit).set_input_shape api (.array4 d0 d1 d2 d3)
        = .error (.exitCode 1337) ∧
      ∃ w, (MyANN.New .IMAGE_2D t n uninit).set_input_shape api (.array4 d0 d1 d2 d3) = .ok w :=
  ⟨rfl, _, rfl⟩

/-- C10, as stated, fails: an `IMAGE_2D` wrapper over `TF_FLOAT` accepts the
tuple `{0, 5, 3}`; the stored count is 4 and the second counted value is 0. -/
theorem C10_zero_dimension_stored :
    ∃ w, (MyANN.New .IMAGE_2D TF_FLOAT 1 sampleUninit).set_input_shape (sampleApi none)
        (.array3 0 5 3) = .ok w ∧
      w.input_shape.dim = 4 ∧
      ¬ (∀ v ∈ w.input_shape.values.take w.input_shape.dim.toNat, 0 < v) :=
  ⟨_, rfl, by decide, by decide⟩

/-- C10, amended: after every call of `set_input_shape` that returns and whose
declared dimensions are all greater than 0, the array holds sixteen values, the
first arity-plus-one of them are 1 followed by the declared dimensions, that
number is at most the capacity 16, and each of them is greater than 0. -/
theorem C10_declared_dimensions_positive (api : TFApi) (self w : MyANN) (tuple : ShapeTuple)
    (h : self.set_input_shape api tuple = .ok w)
    (hpos : ∀ d ∈ tuple.dims, 0 < d) :
    w.input_shape.values.length = MY_TENSOR_SHAPE_MAX_DIM ∧
      tuple.arity + 1 ≤ MY_TENSOR_SHAPE_MAX_DIM ∧
      w.input_shape.values.take (tuple.arity + 1) = 1 :: tuple.dims ∧
      ∀ v ∈ w.input_shape.values.take (tuple.arity + 1), 0 < v := by
  have hw := set_input_shape_result api self w tuple h
  have hvalues : w.input_shape.values
      = (1 :: tuple.dims) ++ List.replicate (MY_TENSOR_SHAPE_MAX_DIM - (tuple.arity + 1)) 0 := by
    rw [hw]
    rfl
  have harity : tuple.arity + 1 ≤ MY_TENSOR_SHAPE_MAX_DIM := by
    cases tuple <;> simp [ShapeTuple.arity, ShapeTuple.dims, MY_TENSOR_SHAPE_MAX_DIM]
  have htake : w.input_shape.values.take (tuple.arity + 1) = 1 :: tuple.dims := by
    rw [hvalues]
    cases tuple <;> rfl
  refine ⟨?_, harity, htake, ?_⟩
  · rw [hvalues]
    simp only [List.length_append, List.length_cons, List.length_replicate, ShapeTuple.arity] at *
    omega
  · intro v hv
    rw [htake] at hv
    rcases List.mem_cons.1 hv with rfl | hv
    · decide
    · exact hpos v hv

/-- Witness of amended C10: a `LIST` wrapper over `TF_FLOAT` and `{1024, 1}`. -/
theorem C10_declared_dimensions_positive_witness :
    (MyANN.New .LIST TF_FLOAT 1024 sampleUninit).set_input_shape (sampleApi none)
        (.array2 1024 1) = .ok sampleListShaped ∧
      (∀ d ∈ (ShapeTuple.array2 1024 1).dims, 0 < d) ∧
      sampleListShaped.input_shape.values.length = MY_TENSOR_SHAPE_MAX_DIM ∧
      (ShapeTuple.array2 1024 1).arity + 1 ≤ MY_TENSOR_SHAPE_MAX_DIM ∧
      sampleListShaped.input_shape.values.take ((ShapeTuple.array2 1024 1).arity + 1)
        = 1 :: (ShapeTuple.array2 1024 1).dims ∧
      ∀ v ∈ sampleListShaped.input_shape.values.take ((ShapeTuple.array2 1024 1).arity + 1),
        0 < v :=
  ⟨rfl, by decide,
    C10_declared_dimensions_positive (sampleApi none)
      (MyANN.New .LIST TF_FLOAT 1024 sampleUninit) sampleListShaped (.array2 1024 1) rfl
      (by decide)⟩

/-! ## Loading a model -/

/-- The result of `my_model_load` is a session exactly when the file was read,
the import succeeded, both names were found and the session was created; the
session then holds the graph, the engine session and output 0 of each
operation. -/
theorem my_model_load_some_iff (api : TFApi) (filename input_name output_name : String)
    (s : MySession) :
    my_model_load api filename input_name output_name = .ok (some s) ↔
      ∃ graph_def graph input_op output_op session,
        api.fileBytes filename = some graph_def ∧
        api.TF_GraphImportGraphDef graph_def = some graph ∧
        api.TF_GraphOperationByName graph input_name = some input_op ∧
        api.TF_GraphOperationByName graph output_name = some output_op ∧
        api.TF_NewSession graph = some session ∧
        s = { graph := graph
              session := session
              inputs := { oper := input_op, index := 0 }
              outputs := { oper := output_op, index := 0 } } := by
  unfold my_model_load read_tf_buffer_from_file
  rcases hf : api.fileBytes filename with _ | graph_def
  · simp
  rcases hg : api.TF_GraphImportGraphDef graph_def with _ | graph
  · simp [hg]
  rcases hi : api.TF_GraphOperationByName graph input_name with _ | input_op
  · simp [hg, hi]
  rcases ho : api.TF_GraphOperationByName graph output_name with _ | output_op
  · simp [hg, hi, ho]
  rcases hs : api.TF_NewSession graph with _ | session
  · simp [hg, hi, ho, hs]
  · simp [hg, hi, ho, hs, eq_comm]

/-- The call `my_model_load` returns exactly when the file can be read. -/
theorem my_model_load_returns (api : TFApi) (filename input_name output_name : String) :
    (api.fileBytes filename = none →
        my_model_load api filename input_name output_name = .error .iosFailure) ∧
      (∀ graph_def, api.fileBytes filename = some graph_def →
        ∃ r, my_model_load api filename input_name output_name = .ok r) := by
  unfold my_model_load read_tf_buffer_from_file
  constructor
  · intro h
    simp [h]
  · intro graph_def h
    simp only [h]
    split
    · exact ⟨_, rfl⟩
    · split
      · split <;> exact ⟨_, rfl⟩
      · exact ⟨_, rfl⟩

/-- When the graph was imported and one of the two names is absent from it,
`my_model_load` returns the null pointer. -/
theorem my_model_load_missing_operation (api : TFApi)
    (filename input_name output_name : String) (graph_def : List Nat) (graph : TF_Graph)
    (hfile : api.fileBytes filename = some graph_def)
    (himport : api.TF_GraphImportGraphDef graph_def = some graph)
    (hmissing : api.TF_GraphOperationByName graph input_name = none ∨
      api.TF_GraphOperationByName graph output_name = none) :
    my_model_load api filename input_name output_name = .ok none := by
  unfold my_model_load read_tf_buffer_from_file
  simp only [hfile, himport]
  rcases hmissing with h | h
  · simp [h]
  · rw [h]
    split <;> simp_all

/-- C6, as stated, fails: a wrapper that holds a session, asked to load a graph
that has no operation named `missing`, returns from `load_model` without an
error and holds no session afterwards. -/
theorem C6_failed_lookup_drops_session :
    ∃ w, (sampleLoaded .LIST TF_FLOAT 4).load_model (sampleApi none) "model.pb" "input"
        "missing" = .ok w ∧
      (sampleLoaded .LIST TF_FLOAT 4).session = some sampleSession ∧
      (sampleLoaded .LIST TF_FLOAT 4).valid_session = true ∧
      w.session = none ∧ w.valid_session = false ∧
      w.session ≠ (sampleLoaded .LIST TF_FLOAT 4).session :=
  ⟨_, rfl, rfl, rfl, rfl, rfl, by decide⟩

/-- C6, amended: for every wrapper state and every graph, read and imported, in
which the input or the output operation name is absent, `load_model` returns
without reporting an error and leaves the wrapper without a session
(`valid_session()` false), every other member unchanged; so the session is the
same as before exactly when the wrapper held none. -/
theorem C6_failed_lookup_clears_session (api : TFApi) (self : MyANN)
    (filename input_name output_name : String) (graph_def : List Nat) (graph : TF_Graph)
    (hfile : api.fileBytes filename = some graph_def)
    (himport : api.TF_GraphImportGraphDef graph_def = some graph)
    (hmissing : api.TF_GraphOperationByName graph input_name = none ∨
      api.TF_GraphOperationByName graph output_name = none) :
    self.load_model api filename input_name output_name = .ok { self with session := none } ∧
      ({ self with session := none } : MyANN).valid_session = false ∧
      (({ self with session := none } : MyANN).session = self.session ↔ self.session = none) := by
  refine ⟨?_, rfl, ?_⟩
  · unfold MyANN.load_model
    rw [my_model_load_missing_operation api filename input_name output_name graph_def graph
      hfile himport hmissing]
  · exact eq_comm

/-- Witness of amended C6: the graph of `model.pb` has no operation `missing`. -/
theorem C6_failed_lookup_clears_session_witness :
    (sampleLoaded .LIST TF_FLOAT 4).load_model (sampleApi none) "model.pb" "input" "missing"
        = .ok { sampleLoaded .LIST TF_FLOAT 4 with session := none } ∧
      ({ sampleLoaded .LIST TF_FLOAT 4 with session := none } : MyANN).valid_session = false ∧
      (({ sampleLoaded .LIST TF_FLOAT 4 with session := none } : MyANN).session
          = (sampleLoaded .LIST TF_FLOAT 4).session ↔
        (sampleLoaded .LIST TF_FLOAT 4).session = none) :=
  C6_failed_lookup_clears_session (sampleApi none) (sampleLoaded .LIST TF_FLOAT 4)
    "model.pb" "input" "missing" [10, 5] 1 rfl rfl (Or.inr rfl)

/-- A call of `load_model` that returns hands back the wrapper object after the
call; a call that ends abnormally leaves the wrapper object as it was. -/
theorem after_load_model_eq (api : TFApi) (self : MyANN)
    (filename input_name output_name : String) :
    (∀ w, self.load_model api filename input_name output_name = .ok w →
        self.after_load_model api filename input_name output_name = w) ∧
      (∀ e, self.load_model api filename input_name output_name = .error e →
        self.after_load_model api filename input_name output_name = self) := by
  unfold MyANN.load_model MyANN.after_load_model
  constructor
  · intro w h
    split at h
    · simp at h
    · injection h
  · intro e h
    split at h
    · rfl
    · simp at h

/-- C7, as stated, fails: a wrapper that holds the session of an earlier
successful load is asked to load a file that cannot be read.  The call throws,
so the load did not succeed, and `valid_session()` is true afterwards. -/
theorem C7_unreadable_file_keeps_session :
    (MyANN.New .LIST TF_FLOAT 4 sampleUninit).load_model (sampleApi none) "model.pb"
        "input" "output" = .ok (sampleLoaded .LIST TF_FLOAT 4) ∧
      (sampleLoaded .LIST TF_FLOAT 4).load_model (sampleApi none) "absent.pb"
        "input" "output" = .error .iosFailure ∧
      my_model_load (sampleApi none) "absent.pb" "input" "output" = .error .iosFailure ∧
      ((sampleLoaded .LIST TF_FLOAT 4).after_load_model (sampleApi none) "absent.pb"
        "input" "output").valid_session = true ∧
      ¬ ∃ graph_def graph input_op output_op session,
          (sampleApi none).fileBytes "absent.pb" = some graph_def ∧
          (sampleApi none).TF_GraphImportGraphDef graph_def = some graph ∧
          (sampleApi none).TF_GraphOperationByName graph "input" = some input_op ∧
          (sampleApi none).TF_GraphOperationByName graph "output" = some output_op ∧
          (sampleApi none).TF_NewSession graph = some session :=
  ⟨rfl, rfl, rfl, rfl, by
    rintro ⟨graph_def, graph, input_op, output_op, session, h, _⟩
    simp [sampleApi] at h⟩

/-- C7, amended: `valid_session()` is false on every wrapper built by
`MyANN::New`.  A call of `load_model` returns exactly when the file can be
read, and after a call that returns `valid_session()` is true if and only if
the graph was imported, both operation names were found and the session was
created.  When the file cannot be read the call throws and the wrapper, and so
`valid_session()`, is as it was before the call. -/
theorem C7_valid_session_after_load :
    (∀ (cls : INPUT_CLASS) (t : TF_DataType) (n : Nat) (uninit : TensorShape),
        (MyANN.New cls t n uninit).valid_session = false) ∧
      ∀ (api : TFApi) (self : MyANN) (filename input_name output_name : String),
        (api.fileBytes filename = none →
          self.load_model api filename input_name output_name = .error .iosFailure ∧
          self.after_load_model api filename input_name output_name = self ∧
          (self.after_load_model api filename input_name output_name).valid_session
            = self.valid_session) ∧
        (∀ graph_def, api.fileBytes filename = some graph_def →
          ∃ w, self.load_model api filename input_name output_name = .ok w ∧
            self.after_load_model api filename input_name output_name = w ∧
            (w.valid_session = true ↔
              ∃ graph input_op output_op session,
                api.TF_GraphImportGraphDef graph_def = some graph ∧
                api.TF_GraphOperationByName graph input_name = some input_op ∧
                api.TF_GraphOperationByName graph output_name = some output_op ∧
                api.TF_NewSession graph = some session)) := by
  refine ⟨fun _ _ _ _ => rfl, fun api self filename input_name output_name => ⟨?_, ?_⟩⟩
  · intro h
    have hload : self.load_model api filename input_name output_name = .error .iosFailure := by
      unfold MyANN.load_model
      rw [(my_model_load_returns api filename input_name output_name).1 h]
    have hstate := (after_load_model_eq api self filename input_name output_name).2 _ hload
    exact ⟨hload, hstate, by rw [hstate]⟩
  · intro graph_def hfile
    obtain ⟨r, hr⟩ := (my_model_load_returns api filename input_name output_name).2 graph_def hfile
    have hload : self.load_model api filename input_name output_name
        = .ok { self with session := r } := by
      unfold MyANN.load_model
      rw [hr]
    refine ⟨{ self with session := r }, hload,
      (after_load_model_eq api self filename input_name output_name).1 _ hload, ?_⟩
    cases r with
    | none =>
      simp only [MyANN.valid_session, Bool.false_eq_true, false_iff]
      rintro ⟨graph, input_op, output_op, session, h1, h2, h3, h4⟩
      have hsome := (my_model_load_some_iff api filename input_name output_name _).2
        ⟨graph_def, graph, input_op, output_op, session, hfile, h1, h2, h3, h4, rfl⟩
      rw [hr] at hsome
      simp at hsome
    | some s =>
      simp only [MyANN.valid_session, true_iff]
      obtain ⟨gd, graph, input_op, output_op, session, h0, h1, h2, h3, h4, _⟩ :=
        (my_model_load_some_iff api filename input_name output_name s).1 hr
      rw [hfile] at h0
      injection h0 with h0
      subst h0
      exact ⟨graph, input_op, output_op, session, h1, h2, h3, h4⟩

/-- Witness of amended C7: a new wrapper, the load of `model.pb` with the names
`input` and `output`, and the load of a file that cannot be read on a wrapper
that holds a session. -/
theorem C7_valid_session_after_load_witness :
    (MyANN.New .LIST TF_FLOAT 4 sampleUninit).valid_session = false ∧
      (∃ w, (MyANN.New .LIST TF_FLOAT 4 sampleUninit).load_model (sampleApi none) "model.pb"
          "input" "output" = .ok w ∧
        (MyANN.New .LIST TF_FLOAT 4 sampleUninit).after_load_model (sampleApi none) "model.pb"
          "input" "output" = w ∧
        (w.valid_session = true ↔
          ∃ graph input_op output_op session,
            (sampleApi none).TF_GraphImportGraphDef [10, 5] = some graph ∧
            (sampleApi none).TF_GraphOperationByName graph "input" = some input_op ∧
            (sampleApi none).TF_GraphOperationByName graph "output" = some output_op ∧
            (sampleApi none).TF_NewSession graph = some session)) ∧
      ((sampleLoaded .LIST TF_FLOAT 4).load_model (sampleApi none) "absent.pb" "input" "output"
          = .error .iosFailure ∧
        (sampleLoaded .LIST TF_FLOAT 4).after_load_model (sampleApi none) "absent.pb" "input"
          "output" = sampleLoaded .LIST TF_FLOAT 4 ∧
        ((sampleLoaded .LIST TF_FLOAT 4).after_load_model (sampleApi none) "absent.pb" "input"
          "output").valid_session = (sampleLoaded .LIST TF_FLOAT 4).valid_session) :=
  ⟨C7_valid_session_after_load.1 .LIST TF_FLOAT 4 sampleUninit,
    (C7_valid_session_after_load.2 (sampleApi none) (MyANN.New .LIST TF_FLOAT 4 sampleUninit)
      "model.pb" "input" "output").2 [10, 5] rfl,
    (C7_valid_session_after_load.2 (sampleApi none) (sampleLoaded .LIST TF_FLOAT 4)
      "absent.pb" "input" "output").1 rfl⟩

/-- C8: `my_model_load` yields a session if and only if the file was read,
the import succeeded, both names were found and the session was created; that
session holds the imported graph and output 0 of the operation found for each
name; in every other case the call yields the null pointer or, when the file
cannot be read, throws. -/
theorem C8_my_model_load_all_or_nothing (api : TFApi)
    (filename input_name output_name : String) :
    (∀ s, my_model_load api filename input_name output_name = .ok (some s) ↔
        ∃ graph_def graph input_op output_op session,
          api.fileBytes filename = some graph_def ∧
          api.TF_GraphImportGraphDef graph_def = some graph ∧
          api.TF_GraphOperationByName graph input_name = some input_op ∧
          api.TF_GraphOperationByName graph output_name = some output_op ∧
          api.TF_NewSession graph = some session ∧
          s = { graph := graph
                session := session
                inputs := { oper := input_op, index := 0 }
                outputs := { oper := output_op, index := 0 } }) ∧
      ((¬ ∃ graph_def graph input_op output_op session,
          api.fileBytes filename = some graph_def ∧
          api.TF_GraphImportGraphDef graph_def = some graph ∧
          api.TF_GraphOperationByName graph input_name = some input_op ∧
          api.TF_GraphOperationByName graph output_name = some output_op ∧
          api.TF_NewSession graph = some session) →
        my_model_load api filename input_name output_name = .ok none ∨
        my_model_load api filename input_name output_name = .error .iosFailure) := by
  refine ⟨my_model_load_some_iff api filename input_name output_name, ?_⟩
  intro hnot
  rcases hf : api.fileBytes filename with _ | graph_def
  · exact Or.inr ((my_model_load_returns api filename input_name output_name).1 hf)
  · obtain ⟨r, hr⟩ := (my_model_load_returns api filename input_name output_name).2 graph_def hf
    cases r with
    | none => exact Or.inl hr
    | some s =>
      obtain ⟨gd, graph, input_op, output_op, session, h0, h1, h2, h3, h4, _⟩ :=
        (my_model_load_some_iff api filename input_name output_name s).1 hr
      exact absurd ⟨gd, graph, input_op, output_op, session, h0, h1, h2, h3, h4⟩ hnot

/-- Witness of C8: `model.pb` with a name that is absent yields the null
pointer, and with both names present yields `sampleSession`. -/
theorem C8_my_model_load_all_or_nothing_witness :
    (my_model_load (sampleApi none) "model.pb" "input" "missing" = .ok none ∨
        my_model_load (sampleApi none) "model.pb" "input" "missing" = .error .iosFailure) ∧
      my_model_load (sampleApi none) "model.pb" "input" "output" = .ok (some sampleSession) :=
  ⟨(C8_my_model_load_all_or_nothing (sampleApi none) "model.pb" "input" "missing").2
      (by
        rintro ⟨graph_def, graph, input_op, output_op, session, _, _, _, h, _⟩
        simp [sampleApi] at h),
    ((C8_my_model_load_all_or_nothing (sampleApi none) "model.pb" "input" "output").1
      sampleSession).2 ⟨[10, 5], 1, 10, 20, 101, rfl, rfl, rfl, rfl, rfl, rfl⟩⟩

/-! ## Running a model -/

/-- The copy loop appends one element per iteration. -/
theorem copyLoop_length {T : Type} (fromFloat : List Nat → T) (output_array : List Nat)
    (remaining i : Nat) (ret r : List T)
    (h : copyLoop fromFloat output_array remaining i ret = .ok r) :
    r.length = ret.length + remaining := by
  induction remaining generalizing i ret with
  | zero =>
    simp only [copyLoop, Except.ok.injEq] at h
    rw [← h]
    rfl
  | succ k ih =>
    unfold copyLoop at h
    split at h
    · simp at h
    · rw [ih _ _ h, List.length_append, List.length_singleton]
      omega

/-- Every sequence `run_model` returns has `OutputLength` elements. -/
theorem run_model_length {T : Type} (api : TFApi) (fromFloat : List Nat → T) (self : MyANN)
    (input_data : List Nat) (seq : List T)
    (h : self.run_model api fromFloat input_data = .ok seq) :
    seq.length = self.OutputLength := by
  unfold MyANN.run_model at h
  split at h
  · simp at h
  split at h
  · simp at h
  split at h
  · simp at h
  split_ifs at h with h1 h2
  simp only at h
  split_ifs at h with h3 h4
  have hlen := copyLoop_length _ _ _ _ _ _ h
  rw [hlen, List.length_nil, Nat.zero_add]
  exact not_not.1 h3

/-- When the run succeeded with the declared element type and the element count
of the output differs from `OutputLength`, `run_model` stops at the `assert`. -/
theorem run_model_length_mismatch {T : Type} (api : TFApi) (fromFloat : List Nat → T)
    (self : MyANN) (input_data : List Nat) (session : MySession) (input_values output : TF_Tensor)
    (hsession : self.session = some session)
    (hinput : api.TF_NewTensor self.InputDataType self.input_shape.values self.input_shape.dim
      input_data self.DataSizeInBytes = some input_values)
    (hrun : api.TF_SessionRun session.session session.inputs input_values session.outputs
      = some output)
    (htype : TF_TensorType output = self.InputDataType)
    (hwidth : api.TF_DataTypeSize self.InputDataType ≠ 0)
    (hcount : TF_TensorByteSize output / api.TF_DataTypeSize self.InputDataType
      ≠ self.OutputLength) :
    self.run_model api fromFloat input_data = .error .assertFailed := by
  unfold MyANN.run_model
  simp only [hinput, hsession, hrun]
  rw [if_neg (not_not.2 htype), if_neg hwidth, if_pos hcount]

/-- C5: the copy loop reads the output through a `const float*` whatever the
element type.  The wrapper `MyANN::New(LIST, TF_DOUBLE, 1)`, after
`set_input_shape({1, 1})` and `load_model("model.pb", "input", "output")`,
returns the same sequence for an output tensor holding the one `double` 1.0 and
for an output tensor holding the one `double` 2.0: one element, built from the
first four bytes alone, for every conversion to the element type of the
result. -/
theorem C5_double_output_read_as_float (T : Type) (fromFloat : List Nat → T) :
    (∃ w, (MyANN.New .LIST TF_DOUBLE 1 sampleUninit).set_input_shape (sampleApi none)
          (.array2 1 1) = .ok w ∧
        w.load_model (sampleApi none) "model.pb" "input" "output" = .ok sampleDoubleLoaded) ∧
      sampleDoubleLoaded.run_model (sampleApi (some { dtype := TF_DOUBLE, bytes := doubleOne }))
        fromFloat doubleOne = .ok [fromFloat [0, 0, 0, 0]] ∧
      sampleDoubleLoaded.run_model (sampleApi (some { dtype := TF_DOUBLE, bytes := doubleTwo }))
        fromFloat doubleOne = .ok [fromFloat [0, 0, 0, 0]] ∧
      doubleOne ≠ doubleTwo :=
  ⟨⟨_, rfl, rfl⟩, rfl, rfl, by decide⟩

/-- C9: for a wrapper that holds a session, an input tensor that was created
and a run that succeeded, `run_model` ends in `exit(19)` when the element type
of the output differs from `InputDataType`, and it returns a sequence only when
the two types are equal. -/
theorem C9_output_type_checked {T : Type} (api : TFApi) (fromFloat : List Nat → T)
    (self : MyANN) (input_data : List Nat) (session : MySession)
    (input_values output : TF_Tensor)
    (hsession : self.session = some session)
    (hinput : api.TF_NewTensor self.InputDataType self.input_shape.values self.input_shape.dim
      input_data self.DataSizeInBytes = some input_values)
    (hrun : api.TF_SessionRun session.session session.inputs input_values session.outputs
      = some output) :
    (TF_TensorType output ≠ self.InputDataType →
        self.run_model api fromFloat input_data = .error (.exitCode 19)) ∧
      (∀ seq, self.run_model api fromFloat input_data = .ok seq →
        TF_TensorType output = self.InputDataType) := by
  have hmismatch : TF_TensorType output ≠ self.InputDataType →
      self.run_model api fromFloat input_data = .error (.exitCode 19) := by
    intro htype
    unfold MyANN.run_model
    simp only [hinput, hsession, hrun]
    rw [if_pos htype]
  refine ⟨hmismatch, fun seq hseq => ?_⟩
  by_contra htype
  rw [hmismatch htype] at hseq
  simp at hseq

/-- Witness of C9: a wrapper over `TF_FLOAT` whose session yields a `TF_DOUBLE`
tensor. -/
theorem C9_output_type_checked_witness :
    (TF_TensorType { dtype := TF_DOUBLE, bytes := doubleOne } ≠
          (sampleLoaded .LIST TF_FLOAT 2).InputDataType →
        (sampleLoaded .LIST TF_FLOAT 2).run_model
          (sampleApi (some { dtype := TF_DOUBLE, bytes := doubleOne })) id doubleOne
          = .error (.exitCode 19)) ∧
      (∀ seq, (sampleLoaded .LIST TF_FLOAT 2).run_model
          (sampleApi (some { dtype := TF_DOUBLE, bytes := doubleOne })) id doubleOne = .ok seq →
        TF_TensorType { dtype := TF_DOUBLE, bytes := doubleOne }
          = (sampleLoaded .LIST TF_FLOAT 2).InputDataType) :=
  C9_output_type_checked (sampleApi (some { dtype := TF_DOUBLE, bytes := doubleOne })) id
    (sampleLoaded .LIST TF_FLOAT 2) doubleOne sampleSession
    { dtype := TF_FLOAT, bytes := doubleOne } { dtype := TF_DOUBLE, bytes := doubleOne }
    rfl rfl rfl
